import Mathlib

/-!
Shallow embedding of `homework.py`, a fitness-tracker utility that computes
distance, mean speed and calories for running, sports-walking and swimming
sessions, formats a report string and dispatches on a workout-type tag.

Python floats and ints are modelled as exact rationals (`ℚ`); Python's
float floor division `//` is modelled with `Int.floor`; a method that can
raise is modelled with `Except`, and the base class's `get_spent_calories`,
whose body is `pass` (so the call returns `None`), is modelled as `none`.
-/

/-- Report record produced by `show_training_info` (class `InfoMessage`). -/
structure InfoMessage where
  training_type : String
  duration : ℚ
  distance : ℚ
  speed : ℚ
  calories : ℚ
deriving DecidableEq

/-- Constant `Training.M_IN_KM = 1000`. -/
def M_IN_KM : ℚ := 1000

/-- The class hierarchy rooted at `Training`: the base class itself is
instantiable in Python, so it appears as the `base` variant alongside the
three subclasses. Field order follows each constructor's signature. -/
inductive Training where
  | base (action duration weight : ℚ)
  | running (action duration weight : ℚ)
  | sportsWalking (action duration weight height : ℚ)
  | swimming (action duration weight length_pool count_pool : ℚ)
deriving DecidableEq

/-- Attribute `self.action`. -/
def Training.action : Training → ℚ
  | .base a _ _ => a
  | .running a _ _ => a
  | .sportsWalking a _ _ _ => a
  | .swimming a _ _ _ _ => a

/-- Attribute `self.duration`. -/
def Training.duration : Training → ℚ
  | .base _ d _ => d
  | .running _ d _ => d
  | .sportsWalking _ d _ _ => d
  | .swimming _ d _ _ _ => d

/-- Attribute `self.weight`. -/
def Training.weight : Training → ℚ
  | .base _ _ w => w
  | .running _ _ w => w
  | .sportsWalking _ _ w _ => w
  | .swimming _ _ w _ _ => w

/-- Class attribute `LEN_STEP`: `0.65` on `Training` (inherited by `Running`
and `SportsWalking`), overridden to `1.38` on `Swimming`. -/
def Training.LEN_STEP : Training → ℚ
  | .swimming _ _ _ _ _ => 1.38
  | _ => 0.65

/-- Method `Training.get_distance`: `self.action * self.LEN_STEP / self.M_IN_KM`.
No subclass overrides it. -/
def Training.get_distance (t : Training) : ℚ :=
  t.action * t.LEN_STEP / M_IN_KM

/-- Method `get_mean_speed`: the base implementation is
`self.get_distance() / self.duration`; `Swimming` overrides it with
`self.length_pool * self.count_pool / self.M_IN_KM / self.duration`. -/
def Training.get_mean_speed : Training → ℚ
  | .swimming _ d _ l c => l * c / M_IN_KM / d
  | t => t.get_distance / t.duration

/-- Dynamic dispatch of `get_spent_calories`. The base method's body is
`pass`, so a direct call on a bare `Training` returns Python's `None`,
modelled as `none`. `Running`, `SportsWalking` and `Swimming` override it
with their formulas; walking's `//` is float floor division, modelled by
`Int.floor` cast back to `ℚ`. -/
def Training.get_spent_calories : Training → Option ℚ
  | .base _ _ _ => none
  | t@(.running _ d w) =>
      some ((18 * t.get_mean_speed - 20) * w / M_IN_KM * (d * 60))
  | t@(.sportsWalking _ d w h) =>
      some ((0.035 * w + (⌊t.get_mean_speed ^ 2 / h⌋ : ℚ) * 0.029 * w) * (d * 60))
  | t@(.swimming _ _ w _ _) =>
      some ((t.get_mean_speed + 1.1) * 2 * w)

/-- Discriminator for the `Swimming` subclass (used to state which variants
inherit the base `get_mean_speed`). -/
def Training.isSwimming : Training → Bool
  | .swimming _ _ _ _ _ => true
  | _ => false

/-- Errors `read_package` can raise: `KeyError` from the dictionary lookup on
an unknown tag, `TypeError` from calling a constructor with the wrong number
of positional arguments. -/
inductive DispatchError where
  | keyError (tag : String)
  | arityError (tag : String)
deriving DecidableEq

/-- Function `read_package`: looks `workout_type` up in the dict
`{'SWM': Swimming, 'RUN': Running, 'WLK': SportsWalking}` (a missing key
raises `KeyError`) and applies the constructor to `data` positionally (a
wrong arity raises `TypeError`). -/
def read_package (workout_type : String) (data : List ℚ) : Except DispatchError Training :=
  if workout_type = "SWM" then
    match data with
    | [a, d, w, l, c] => .ok (.swimming a d w l c)
    | _ => .error (.arityError workout_type)
  else if workout_type = "RUN" then
    match data with
    | [a, d, w] => .ok (.running a d w)
    | _ => .error (.arityError workout_type)
  else if workout_type = "WLK" then
    match data with
    | [a, d, w, h] => .ok (.sportsWalking a d w h)
    | _ => .error (.arityError workout_type)
  else
    .error (.keyError workout_type)

/-- Round a rational to the nearest integer, ties to even: the rounding CPython
applies to the scaled value when formatting with `'{:.3f}'`. -/
def roundHalfEven (q : ℚ) : ℤ :=
  if q - ⌊q⌋ < 1 / 2 then ⌊q⌋
  else if 1 / 2 < q - ⌊q⌋ then ⌊q⌋ + 1
  else if ⌊q⌋ % 2 = 0 then ⌊q⌋ else ⌊q⌋ + 1

/-- Zero-padded three-digit decimal string of `k % 1000`'s three digits. -/
def pad3 (k : ℕ) : String :=
  ⟨[Nat.digitChar (k / 100 % 10), Nat.digitChar (k / 10 % 10), Nat.digitChar (k % 10)]⟩

/-- Python's `'{0:.3f}'.format(q)`: fixed-point with exactly three digits
after the decimal point. -/
def fmtFixed3 (q : ℚ) : String :=
  (if roundHalfEven (q * 1000) < 0 then "-" else "")
    ++ toString ((roundHalfEven (q * 1000)).natAbs / 1000)
    ++ "." ++ pad3 ((roundHalfEven (q * 1000)).natAbs % 1000)

/-- Method `InfoMessage.get_message`: the template
`'Тип тренировки: ...'` with the five fields substituted, the four numeric
ones through `{n:.3f}`. -/
def InfoMessage.get_message (m : InfoMessage) : String :=
  "Тип тренировки: " ++ m.training_type
    ++ "; Длительность: " ++ fmtFixed3 m.duration
    ++ " ч.; Дистанция: " ++ fmtFixed3 m.distance
    ++ " км; Ср. скорость: " ++ fmtFixed3 m.speed
    ++ " км/ч; Потрачено ккал: " ++ fmtFixed3 m.calories ++ "."

/-- A call of the method `get_message` viewed as a state transformer: it
returns the string together with the post-state of the receiver (the method
assigns no attribute, so the receiver is returned unchanged). -/
def InfoMessage.get_message_call (m : InfoMessage) : String × InfoMessage :=
  (m.get_message, m)

/-- Method `InfoMessage.show_training_info`: builds and returns a fresh
`InfoMessage` from the receiver's five fields. -/
def InfoMessage.show_training_info (m : InfoMessage) : InfoMessage :=
  ⟨m.training_type, m.duration, m.distance, m.speed, m.calories⟩

/-- A call of `InfoMessage.show_training_info` as a state transformer:
result together with the unmodified receiver. -/
def InfoMessage.show_training_info_call (m : InfoMessage) : InfoMessage × InfoMessage :=
  (m.show_training_info, m)

/-- Every digit produced by `Nat.digitChar` on a value below ten satisfies
`Char.isDigit`. -/
theorem digitChar_isDigit : ∀ m : ℕ, m < 10 → (Nat.digitChar m).isDigit = true := by decide

/-- Shape of `fmtFixed3`'s output: an integer part, a decimal point, and a
fractional part of exactly three digit characters. -/
theorem fmtFixed3_shape (q : ℚ) :
    ∃ s t : String, fmtFixed3 q = s ++ "." ++ t ∧ t.length = 3
      ∧ t.toList.all Char.isDigit = true := by
  refine ⟨(if roundHalfEven (q * 1000) < 0 then "-" else "")
      ++ toString ((roundHalfEven (q * 1000)).natAbs / 1000),
    pad3 ((roundHalfEven (q * 1000)).natAbs % 1000), rfl, rfl, ?_⟩
  have h1 := digitChar_isDigit ((roundHalfEven (q * 1000)).natAbs % 1000 / 100 % 10)
    (Nat.mod_lt _ (by norm_num))
  have h2 := digitChar_isDigit ((roundHalfEven (q * 1000)).natAbs % 1000 / 10 % 10)
    (Nat.mod_lt _ (by norm_num))
  have h3 := digitChar_isDigit ((roundHalfEven (q * 1000)).natAbs % 1000 % 10)
    (Nat.mod_lt _ (by norm_num))
  simp [pad3, String.toList, h1, h2, h3]

/-- Claim C1: for every Running session with action count `a`, duration `d`
hours and weight `w` kg, `get_spent_calories` returns exactly
`(18 * mean_speed - 20) * w / 1000 * d * 60` where
`mean_speed = (a * 0.65 / 1000) / d`. -/
theorem running_calories_formula (a d w : ℚ) (hd : 0 < d) :
    Training.get_spent_calories (.running a d w)
      = some ((18 * ((a * 0.65 / 1000) / d) - 20) * w / 1000 * d * 60) := by
  simp only [Training.get_spent_calories, Training.get_mean_speed, Training.get_distance,
    Training.action, Training.LEN_STEP, Training.duration, M_IN_KM, Option.some.injEq]
  ring

/-- Witness for `running_calories_formula` at the sample RUN package
`action=15000, duration=1, weight=75`. -/
theorem running_calories_formula_witness :
    (0 : ℚ) < 1 ∧ Training.get_spent_calories (.running 15000 1 75)
      = some ((18 * ((15000 * 0.65 / 1000) / 1) - 20) * 75 / 1000 * 1 * 60) :=
  ⟨by norm_num, running_calories_formula 15000 1 75 (by norm_num)⟩

/-- Claim C2, counterexample: on `Running(15000, 1, 75)` the code returns
exactly `699.75` kcal, which misses the claimed value `729.375` by `29.625`,
so the calorie part of the claim is false. -/
theorem running_sample_calories_value :
    Training.get_spent_calories (.running 15000 1 75) = some 699.75
      ∧ (729.375 : ℚ) - 699.75 = 29.625 := by
  constructor
  · norm_num [Training.get_spent_calories, Training.get_mean_speed, Training.get_distance,
      Training.action, Training.LEN_STEP, Training.duration, M_IN_KM]
  · norm_num

/-- Claim C2 as amended: for Running with `action=15000, duration=1,
weight=75`, `get_distance` and `get_mean_speed` return `9.75` and
`get_spent_calories` returns exactly `699.75`. -/
theorem running_sample_metrics :
    Training.get_distance (.running 15000 1 75) = 9.75
      ∧ Training.get_mean_speed (.running 15000 1 75) = 9.75
      ∧ Training.get_spent_calories (.running 15000 1 75) = some 699.75 := by
  refine ⟨?_, ?_, ?_⟩ <;>
    norm_num [Training.get_spent_calories, Training.get_mean_speed, Training.get_distance,
      Training.action, Training.LEN_STEP, Training.duration, M_IN_KM]

/-- Claim C3: for every SportsWalking session, `get_spent_calories` returns
exactly `(0.035 * w + floor(mean_speed ^ 2 / h) * 0.029 * w) * d * 60` with
floor division; moreover, at the sample WLK package the result differs from
the true-division variant of the formula, so the floor is essential. -/
theorem walking_calories_floor_division :
    (∀ a d w h : ℚ, 0 < d → 0 < h →
        Training.get_spent_calories (.sportsWalking a d w h)
          = some ((0.035 * w + (⌊(a * 0.65 / 1000 / d) ^ 2 / h⌋ : ℚ) * 0.029 * w) * d * 60))
      ∧ Training.get_spent_calories (.sportsWalking 9000 1 75 180)
          ≠ some ((0.035 * 75 + ((9000 : ℚ) * 0.65 / 1000 / 1) ^ 2 / 180 * 0.029 * 75) * 1 * 60) := by
  constructor
  · intro a d w h hd hh
    simp only [Training.get_spent_calories, Training.get_mean_speed, Training.get_distance,
      Training.action, Training.LEN_STEP, Training.duration, M_IN_KM, Option.some.injEq]
    ring
  · norm_num [Training.get_spent_calories, Training.get_mean_speed, Training.get_distance,
      Training.action, Training.LEN_STEP, Training.duration, M_IN_KM]

/-- Witness for `walking_calories_floor_division` at the sample WLK package
`action=9000, duration=1, weight=75, height=180`. -/
theorem walking_calories_floor_division_witness :
    Training.get_spent_calories (.sportsWalking 9000 1 75 180)
      = some ((0.035 * 75 + (⌊((9000 : ℚ) * 0.65 / 1000 / 1) ^ 2 / 180⌋ : ℚ) * 0.029 * 75) * 1 * 60) :=
  walking_calories_floor_division.1 9000 1 75 180 (by norm_num) (by norm_num)

/-- Claim C4: every non-Swimming session computes `get_mean_speed` as
`get_distance / duration`; Swimming overrides it with
`length_pool * count_pool / 1000 / duration`, and at the sample SWM package
the override really differs from `get_distance / duration`. -/
theorem mean_speed_override :
    (∀ t : Training, t.isSwimming = false → t.get_mean_speed = t.get_distance / t.duration)
      ∧ (∀ a d w l c : ℚ, Training.get_mean_speed (.swimming a d w l c) = l * c / 1000 / d)
      ∧ Training.get_mean_speed (.swimming 720 1 80 25 40)
          ≠ Training.get_distance (.swimming 720 1 80 25 40)
              / Training.duration (.swimming 720 1 80 25 40) := by
  refine ⟨?_, ?_, ?_⟩
  · intro t ht
    cases t <;> simp_all [Training.isSwimming, Training.get_mean_speed]
  · intro a d w l c
    simp [Training.get_mean_speed, M_IN_KM]
  · norm_num [Training.get_mean_speed, Training.get_distance, Training.action,
      Training.LEN_STEP, Training.duration, M_IN_KM]

/-- Witness for `mean_speed_override` at the sample RUN package, a
non-Swimming session. -/
theorem mean_speed_override_witness :
    Training.isSwimming (.running 15000 1 75) = false
      ∧ Training.get_mean_speed (.running 15000 1 75)
          = Training.get_distance (.running 15000 1 75)
              / Training.duration (.running 15000 1 75) :=
  ⟨rfl, mean_speed_override.1 (.running 15000 1 75) rfl⟩

/-- Claim C5: every Swimming session burns
`(mean_speed + 1.1) * 2 * w` kcal with the swimming mean-speed override; at
the sample SWM package the mean speed is `1` km/h and the calories are
`336`. -/
theorem swimming_calories_formula :
    (∀ a d w l c : ℚ, 0 < d →
        Training.get_spent_calories (.swimming a d w l c)
          = some ((l * c / 1000 / d + 1.1) * 2 * w))
      ∧ Training.get_mean_speed (.swimming 720 1 80 25 40) = 1
      ∧ Training.get_spent_calories (.swimming 720 1 80 25 40) = some 336 := by
  refine ⟨?_, ?_, ?_⟩
  · intro a d w l c hd
    simp [Training.get_spent_calories, Training.get_mean_speed, M_IN_KM]
  · norm_num [Training.get_mean_speed, M_IN_KM]
  · norm_num [Training.get_spent_calories, Training.get_mean_speed, M_IN_KM]

/-- Witness for `swimming_calories_formula` at the sample SWM package
`action=720, duration=1, weight=80, length_pool=25, count_pool=40`. -/
theorem swimming_calories_formula_witness :
    Training.get_spent_calories (.swimming 720 1 80 25 40)
      = some ((25 * 40 / 1000 / 1 + 1.1) * 2 * 80) :=
  swimming_calories_formula.1 720 1 80 25 40 (by norm_num)

/-- Claim C6: contrary to the claim, calling `get_spent_calories` on a bare
`Training` raises nothing — the body is `pass`, so the call silently returns
`None` (here `none`), for every argument triple. -/
theorem base_calories_returns_none (a d w : ℚ) :
    Training.get_spent_calories (.base a d w) = none := rfl

/-- Claim C7: `read_package` fails with the dictionary `KeyError` on the
unknown tag (never a silent default) whenever the tag is none of
`SWM`, `RUN`, `WLK`; on tag `SWM` with a five-element list it returns a
Swimming session built from the list positionally. -/
theorem read_package_dispatch :
    (∀ (tag : String) (data : List ℚ), tag ≠ "SWM" → tag ≠ "RUN" → tag ≠ "WLK" →
        read_package tag data = .error (.keyError tag))
      ∧ (∀ a d w l c : ℚ, read_package "SWM" [a, d, w, l, c] = .ok (.swimming a d w l c)) := by
  constructor
  · intro tag data h1 h2 h3
    simp [read_package, h1, h2, h3]
  · intro a d w l c
    simp [read_package]

/-- Witness for `read_package_dispatch` at the unknown tag `XYZ` and at the
sample SWM package. -/
theorem read_package_dispatch_witness :
    read_package "XYZ" [] = .error (.keyError "XYZ")
      ∧ read_package "SWM" [720, 1, 80, 25, 40] = .ok (.swimming 720 1 80 25 40) :=
  ⟨read_package_dispatch.1 "XYZ" [] (by decide) (by decide) (by decide),
    read_package_dispatch.2 720 1 80 25 40⟩

/-- Claim C8: `get_message` renders exactly the fixed template with the five
fields substituted; each numeric field is rendered by `fmtFixed3`, whose
output always carries exactly three digit characters after the decimal
point, and the integer-valued `336` renders as `336.000`. -/
theorem get_message_template (m : InfoMessage) :
    m.get_message
        = "Тип тренировки: " ++ m.training_type ++ "; Длительность: "
            ++ fmtFixed3 m.duration ++ " ч.; Дистанция: " ++ fmtFixed3 m.distance
            ++ " км; Ср. скорость: " ++ fmtFixed3 m.speed ++ " км/ч; Потрачено ккал: "
            ++ fmtFixed3 m.calories ++ "."
      ∧ (∀ q : ℚ, ∃ s t : String, fmtFixed3 q = s ++ "." ++ t ∧ t.length = 3
            ∧ t.toList.all Char.isDigit = true)
      ∧ fmtFixed3 336 = "336.000" := by
  refine ⟨rfl, fmtFixed3_shape, ?_⟩
  unfold fmtFixed3
  rw [show roundHalfEven ((336 : ℚ) * 1000) = 336000 by unfold roundHalfEven; norm_num]
  decide

/-- Claim C9: `get_message` is deterministic and idempotent — calling it
twice in a row on the same report leaves the report unchanged and yields
byte-identical strings. -/
theorem get_message_deterministic_idempotent (m : InfoMessage) :
    (m.get_message_call).2.get_message_call.1 = (m.get_message_call).1
      ∧ (m.get_message_call).2 = m :=
  ⟨rfl, rfl⟩

/-- Claim C10: `InfoMessage.show_training_info` returns a report whose five
fields equal the receiver's and leaves the receiver unchanged. -/
theorem show_training_info_copies_fields (m : InfoMessage) :
    (m.show_training_info_call).1.training_type = m.training_type
      ∧ (m.show_training_info_call).1.duration = m.duration
      ∧ (m.show_training_info_call).1.distance = m.distance
      ∧ (m.show_training_info_call).1.speed = m.speed
      ∧ (m.show_training_info_call).1.calories = m.calories
      ∧ (m.show_training_info_call).2 = m :=
  ⟨rfl, rfl, rfl, rfl, rfl, rfl⟩
